import Mathlib

/-!
Verification of the kplr client library (kplr/api.py, kplr/offline.py).

A shallow embedding in Lean 4 of the parts of the source needed to settle
the specification claims:

* the field normalizer `API._munge_dict` together with models of Python 2's
  `int()` / `float()` conversions;
* the identity-template formatting done in `Model.__init__` and the
  per-variant `_id` templates (`KOI`, `Planet`, `Star`, `_datafile`);
* the planet-name pattern match in `API.planet`;
* the pure path/URL derivation of `_datafile` (`filename`, `url`) and the
  effectful `_datafile.fetch`;
* the lazy memoized relation accessors (`Star.kois`, `KOI.star`,
  `Planet.koi`, `Planet.star`);
* the method resolution of `OfflineAPI` (which overrides only `koi`,
  `star` and `light_curves` of `API`), tracked through effect traces.

Machine integers, floats and strings are modelled with `Int`, an exact
`PyFloat` type over `ℚ`, and Lean `String`/`List Char`; fallible Python
code is modelled with `Except PyErr`.
-/

set_option autoImplicit false

deriving instance DecidableEq for Except

namespace Kplr

/-!
Section: Python scalar values.

Rows arriving from the two archive services hold strings (CSV path) or
JSON scalars (JSON path): strings, integers, floats and null.  Python
floats are modelled exactly: a finite value is a rational (no claim
depends on binary rounding), and the special values accepted by `float()`
are kept as constructors.
-/

inductive PyFloat where
  | finite (q : ℚ)
  | inf
  | ninf
  | nan
deriving DecidableEq

def PyFloat.neg : PyFloat → PyFloat
  | .finite q => .finite (-q)
  | .inf => .ninf
  | .ninf => .inf
  | .nan => .nan

inductive PyVal where
  | str (s : String)
  | int (n : ℤ)
  | float (f : PyFloat)
  | none
deriving DecidableEq

/-- The Python exception kinds raised by the modelled code paths. -/
inductive PyErr where
  | valueError
  | typeError
  | overflowError
  | keyError
  | attributeError
deriving DecidableEq

/-!
Section: Python 2 `int()` and `float()` on strings.

`int(s)` strips ASCII whitespace, allows one optional sign, then requires
a non-empty run of decimal digits and nothing else.  `float(s)` strips
whitespace, allows one optional sign, then either a decimal literal
(`digits [. digits] [exponent]` or `. digits [exponent]`) or one of the
special names `inf`/`infinity`/`nan` (case-insensitive).
-/

def isPySpace (c : Char) : Bool :=
  c = ' ' || c = '\t' || c = '\n' || c = '\r' || c = '\x0b' || c = '\x0c'

def stripChars (l : List Char) : List Char :=
  ((l.dropWhile isPySpace).reverse.dropWhile isPySpace).reverse

def digitVal (c : Char) : Nat := c.toNat - 48

def digitsToNat (l : List Char) : Nat :=
  l.foldl (fun a c => 10 * a + digitVal c) 0

/-- A non-empty all-digit run, else failure. -/
def parseNatDigits (l : List Char) : Option Nat :=
  if !l.isEmpty && l.all Char.isDigit then some (digitsToNat l) else none

/-- An optionally signed non-empty all-digit run, else failure. -/
def parseSignedDigits (l : List Char) : Option Int :=
  match l with
  | '+' :: rest => (parseNatDigits rest).map (fun n => (n : Int))
  | '-' :: rest => (parseNatDigits rest).map (fun n => -(n : Int))
  | rest => (parseNatDigits rest).map (fun n => (n : Int))

/-- Python 2 `int(s)` for a string argument. -/
def pyIntParse (s : String) : Option Int :=
  parseSignedDigits (stripChars s.data)

/-- Value of `ip . fp × 10 ^ ex` as an exact rational. -/
def decimalValue (ip fp : List Char) (ex : Int) : ℚ :=
  ((digitsToNat ip : ℚ) + (digitsToNat fp : ℚ) / (10 : ℚ) ^ (fp.length : ℤ))
    * (10 : ℚ) ^ ex

/-- The unsigned decimal-literal part of Python `float()` parsing:
`digits [. digits] [(e|E) signed-digits]`, where at least one digit must
appear before any exponent. -/
def floatDigitsParse (l : List Char) : Option ℚ :=
  let ip := l.takeWhile Char.isDigit
  match l.dropWhile Char.isDigit with
  | [] => if ip.isEmpty then none else some (decimalValue ip [] 0)
  | '.' :: rest2 =>
    let fp := rest2.takeWhile Char.isDigit
    if ip.isEmpty && fp.isEmpty then none
    else
      match rest2.dropWhile Char.isDigit with
      | [] => some (decimalValue ip fp 0)
      | c :: rest4 =>
        if c = 'e' || c = 'E' then (parseSignedDigits rest4).map (decimalValue ip fp)
        else none
  | c :: rest2 =>
    if (c = 'e' || c = 'E') && !ip.isEmpty then
      (parseSignedDigits rest2).map (decimalValue ip [])
    else none

/-- Python 2 `str.lower` lowercases exactly the 26 ASCII uppercase
letters. -/
def pyLowerChar : Char → Char
  | 'A' => 'a' | 'B' => 'b' | 'C' => 'c' | 'D' => 'd' | 'E' => 'e'
  | 'F' => 'f' | 'G' => 'g' | 'H' => 'h' | 'I' => 'i' | 'J' => 'j'
  | 'K' => 'k' | 'L' => 'l' | 'M' => 'm' | 'N' => 'n' | 'O' => 'o'
  | 'P' => 'p' | 'Q' => 'q' | 'R' => 'r' | 'S' => 's' | 'T' => 't'
  | 'U' => 'u' | 'V' => 'v' | 'W' => 'w' | 'X' => 'x' | 'Y' => 'y'
  | 'Z' => 'z' | c => c

def pyLower (s : String) : String := String.mk (s.data.map pyLowerChar)

/-- The special float names accepted by Python `float()` after the sign. -/
def pyFloatNamed (l : List Char) : Option PyFloat :=
  let low := l.map pyLowerChar
  if low = "inf".data || low = "infinity".data then some PyFloat.inf
  else if low = "nan".data then some PyFloat.nan
  else none

/-- Python 2 `float(s)` for a string argument. -/
def pyFloatParse (s : String) : Option PyFloat :=
  match stripChars s.data with
  | '+' :: rest =>
    (match floatDigitsParse rest with
     | some q => some (PyFloat.finite q)
     | none => pyFloatNamed rest)
  | '-' :: rest =>
    (match floatDigitsParse rest with
     | some q => some (PyFloat.finite (-q))
     | none => (pyFloatNamed rest).map PyFloat.neg)
  | rest =>
    (match floatDigitsParse rest with
     | some q => some (PyFloat.finite q)
     | none => pyFloatNamed rest)

/-!
Section: `int()` and `float()` on arbitrary values.

`int(v)`: a string is parsed (failure is a `ValueError`); an int is the
identity; a finite float is truncated toward zero; an infinity raises
`OverflowError`, a NaN raises `ValueError`; `None` raises `TypeError`.
`float(v)` likewise, with `None` raising `TypeError`.
-/

/-- Truncation toward zero: Python `int()` applied to a finite float. -/
def ratTrunc (q : ℚ) : ℤ := q.num.tdiv (q.den : ℤ)

def pyIntOf : PyVal → Except PyErr Int
  | .str s =>
    match pyIntParse s with
    | some n => .ok n
    | Option.none => .error .valueError
  | .int n => .ok n
  | .float (.finite q) => .ok (ratTrunc q)
  | .float .inf => .error .overflowError
  | .float .ninf => .error .overflowError
  | .float .nan => .error .valueError
  | .none => .error .typeError

def pyFloatOf : PyVal → Except PyErr PyFloat
  | .str s =>
    match pyFloatParse s with
    | some f => .ok f
    | Option.none => .error .valueError
  | .int n => .ok (.finite (n : ℚ))
  | .float f => .ok f
  | .none => .error .typeError

/-- Python `v == ""`: only the empty string compares equal to `""`. -/
def pyEqEmptyStr : PyVal → Bool
  | .str s => s = ""
  | _ => false

/-!
Section: `API._munge_dict` (api.py lines 112-139).

For each value `v` of the row, the source runs

  try: tmp[k] = int(v)
  except ValueError:
    try: tmp[k] = float(v)
    except ValueError: tmp[k] = v
  if v == "": tmp[k] = None

Only `ValueError` is caught; any other exception (for instance the
`TypeError` raised by `int(None)`) propagates to the caller.
-/

def mungeValue (v : PyVal) : Except PyErr PyVal :=
  let typed : Except PyErr PyVal :=
    match pyIntOf v with
    | .ok n => .ok (.int n)
    | .error .valueError =>
      match pyFloatOf v with
      | .ok f => .ok (.float f)
      | .error .valueError => .ok v
      | .error e => .error e
    | .error e => .error e
  match typed with
  | .error e => .error e
  | .ok t => if pyEqEmptyStr v then .ok .none else .ok t

/-- Whole-row normalization of `API._munge_dict`: munge every value, keys
unchanged; an uncaught exception from any value aborts the whole row.
Rows are association lists (Python dict iteration order). -/
def mungeDict : List (String × PyVal) → Except PyErr (List (String × PyVal))
  | [] => .ok []
  | (k, v) :: rest =>
    match mungeValue v with
    | .error e => .error e
    | .ok t =>
      match mungeDict rest with
      | .error e => .error e
      | .ok r => .ok ((k, t) :: r)

/-- Row normalization as applied by `ea_request` (api.py line 73): the
default `_munge_dict` over every parsed CSV row. -/
def eaNormalizeRows (rows : List (List (String × PyVal))) :
    Except PyErr (List (List (String × PyVal))) :=
  rows.mapM mungeDict

/-- Row normalization as applied by `mast_request` when no adapter is
given (api.py line 108): the same `_munge_dict` over every JSON row. -/
def mastNormalizeRows (rows : List (List (String × PyVal))) :
    Except PyErr (List (List (String × PyVal))) :=
  rows.mapM mungeDict

/-- The per-value normalization rule in the order the spec states it:
empty string first, then integer parse, then float parse, then keep the
string.  Stated for comparison with `mungeValue` (which tries `int` first
and overrides the empty string afterwards). -/
def specNormalizeValue (v : String) : PyVal :=
  if v = "" then .none
  else
    match pyIntParse v with
    | some n => .int n
    | Option.none =>
      match pyFloatParse v with
      | some f => .float f
      | Option.none => .str v

/-!
Section: decimal rendering and `str()`.

Used by `"{0:09d}".format` in `_datafile.__init__` and by the identity
templates (`str.format` renders an int field in decimal).
-/

def digitChar : Nat → Char
  | 0 => '0' | 1 => '1' | 2 => '2' | 3 => '3' | 4 => '4'
  | 5 => '5' | 6 => '6' | 7 => '7' | 8 => '8' | _ => '9'

/-- Decimal digits of `n`, least significant first; the first argument is
fuel (one digit is produced per unit of fuel, so fuel `n` suffices). -/
def natToRevDigits : Nat → Nat → List Char
  | 0, _ => []
  | _ + 1, 0 => []
  | fuel + 1, n + 1 =>
    digitChar ((n + 1) % 10) :: natToRevDigits fuel ((n + 1) / 10)

def natDecimal (n : Nat) : String :=
  if n = 0 then "0" else String.mk (natToRevDigits n n).reverse

def intDecimal (n : Int) : String :=
  if n < 0 then "-" ++ natDecimal n.natAbs else natDecimal n.natAbs

/-- Python `str(v)` for the values that occur in identity fields.  The
string, int and `None` renderings are faithful; the float rendering is a
placeholder (Python's shortest-round-trip float repr is out of scope and
no claim builds an identity from a float field). -/
def pyStrVal : PyVal → String
  | .str s => s
  | .int n => intDecimal n
  | .float (.finite q) => intDecimal q.num ++ "/" ++ natDecimal q.den
  | .float .inf => "inf"
  | .float .ninf => "-inf"
  | .float .nan => "nan"
  | .none => "None"

/-!
Section: identity templates and `Model.__init__` (api.py lines 256-264).

`Model.__init__` stores every mapping entry as an attribute and then runs
`self._name = self._id.format(**params)`.  A template field absent from
`params` makes `str.format` raise `KeyError`; a present value is rendered
with `str()` whatever it is (`None` renders as `"None"`).
-/

inductive TemplatePiece where
  | lit (s : String)
  | field (name : String)

/-- Python `str.format` over a parsed template: literals are copied,
fields are looked up in the keyword mapping and rendered with `str()`;
a missing field raises `KeyError`. -/
def pyFormat : List TemplatePiece → List (String × PyVal) → Except PyErr String
  | [], _ => .ok ""
  | .lit s :: rest, params => (pyFormat rest params).map (fun t => s ++ t)
  | .field f :: rest, params =>
    match params.lookup f with
    | some v => (pyFormat rest params).map (fun t => pyStrVal v ++ t)
    | Option.none => .error .keyError

/-- `KOI._id = "\"{kepoi_name}\""` (api.py line 285). -/
def koiIdTemplate : List TemplatePiece :=
  [.lit "\"", .field "kepoi_name", .lit "\""]

/-- `Planet._id = "\"{kepler_name}\""` (api.py line 300). -/
def planetIdTemplate : List TemplatePiece :=
  [.lit "\"", .field "kepler_name", .lit "\""]

/-- `Star._id = "{kic_kepler_id}"` (api.py line 322). -/
def starIdTemplate : List TemplatePiece :=
  [.field "kic_kepler_id"]

/-- `_datafile._id = "\"{sci_data_set_name}_{ktc_target_type}\""`
(api.py line 339). -/
def datafileIdTemplate : List TemplatePiece :=
  [.lit "\"", .field "sci_data_set_name", .lit "_",
   .field "ktc_target_type", .lit "\""]

/-- A constructed record: the row mapping exposed as attributes plus the
`_name` identity string computed by `Model.__init__`. -/
structure ModelRec where
  fields : List (String × PyVal)
  name : String
deriving DecidableEq

/-- `Model.__init__`: store the mapping, then format the variant's `_id`
template over it (a missing template field raises `KeyError`). -/
def modelInit (tmpl : List TemplatePiece) (params : List (String × PyVal)) :
    Except PyErr ModelRec :=
  (pyFormat tmpl params).map (fun nm => { fields := params, name := nm })

/-- `KOI.__init__` (minus the lazy `_star` slot, modelled separately). -/
def koiInit (params : List (String × PyVal)) : Except PyErr ModelRec :=
  modelInit koiIdTemplate params

/-- `Planet.__init__` (minus the lazy slots). -/
def planetInit (params : List (String × PyVal)) : Except PyErr ModelRec :=
  modelInit planetIdTemplate params

/-- `Star.__init__`: the base construction, then
`self.kepid = self.kic_kepler_id`, exposed as one more attribute.  The
attribute read cannot fail after the template formatted, since the
template itself references `kic_kepler_id`. -/
def starInit (params : List (String × PyVal)) : Except PyErr ModelRec :=
  match modelInit starIdTemplate params with
  | .error e => .error e
  | .ok r =>
    match params.lookup "kic_kepler_id" with
    | some v => .ok { r with fields := ("kepid", v) :: r.fields }
    | Option.none => .error .attributeError

/-!
Section: the dataset locator of `_datafile` (api.py lines 337-362).

`__init__` derives `kepid = "{0:09d}".format(int(ktc_kepler_id))`,
`base_dir = os.path.join(data_root, "data", product, kepid)`, the
cadence suffix `suffixes[int(ktc_target_type != "LC")]` and
`_filename = "{0}_{1}{2}".format(sci_data_set_name, suffix, filetype)
.lower()`; the `filename` property joins `base_dir` with `_filename` and
the `url` property formats the fixed base with product, `kepid[:4]`,
`kepid` and `_filename`.  The target id is taken here already converted
by `int()` (`pyIntOf` above models that conversion).
-/

/-- Zero-padding of `"{0:09d}".format` for a non-negative id. -/
def pad9 (n : Nat) : String :=
  String.mk (List.replicate (9 - (natDecimal n).length) '0') ++ natDecimal n

/-- Python 2 `posixpath.join` for two components: an absolute second
component wins; otherwise a `/` separator is inserted unless the first
component is empty or already ends in `/`. -/
def pyJoin (a b : String) : String :=
  if b.data.head? = some '/' then b
  else if a.data = [] then b
  else if a.data.getLast? = some '/' then a ++ b
  else a ++ "/" ++ b

/-- The per-class constants of the two `_datafile` subclasses. -/
structure DatafileClass where
  product : String
  suffixes : List String
  filetype : String

/-- `LightCurve` (api.py lines 393-397). -/
def lightCurveClass : DatafileClass :=
  { product := "lightcurves", suffixes := ["llc", "slc"], filetype := ".fits" }

/-- `TargetPixelFile` (api.py lines 400-404). -/
def targetPixelFileClass : DatafileClass :=
  { product := "target_pixel_files", suffixes := ["lpd-targ", "spd-targ"],
    filetype := ".fits.gz" }

/-- `suffixes[int(ktc_target_type != "LC")]`: index 0 exactly when the
target-type flag equals `"LC"`. -/
def datafileSuffix (cls : DatafileClass) (ttype : String) : String :=
  cls.suffixes.getD (if ttype = "LC" then 0 else 1) ""

/-- `_filename`: the lowercased `<dataset>_<suffix><ext>`. -/
def datafileFilenameLocal (cls : DatafileClass) (dataset ttype : String) : String :=
  pyLower (dataset ++ "_" ++ datafileSuffix cls ttype ++ cls.filetype)

/-- `base_dir = os.path.join(data_root, "data", product, kepid)`. -/
def datafileBaseDir (dataRoot : String) (cls : DatafileClass) (id : Nat) : String :=
  pyJoin (pyJoin (pyJoin dataRoot "data") cls.product) (pad9 id)

/-- The `filename` property: `os.path.join(base_dir, _filename)`. -/
def datafileLocalPath (dataRoot : String) (cls : DatafileClass) (id : Nat)
    (dataset ttype : String) : String :=
  pyJoin (datafileBaseDir dataRoot cls id) (datafileFilenameLocal cls dataset ttype)

/-- The `url` property:
`base_url.format(product, kepid[:4], kepid, _filename)`. -/
def datafileUrl (cls : DatafileClass) (id : Nat) (dataset ttype : String) : String :=
  "http://archive.stsci.edu/pub/kepler/" ++ cls.product ++ "/"
    ++ String.mk ((pad9 id).data.take 4) ++ "/" ++ pad9 id ++ "/"
    ++ datafileFilenameLocal cls dataset ttype

/-!
Section: `_datafile.fetch` (api.py lines 364-390).

The filesystem is modelled as the list of existing paths; the HTTP
response to the GET is an oracle argument (its status code).  The source
returns `self` on both the cache-hit and the download path and never
mutates the record, so the record is threaded through unchanged.
-/

/-- One `fetch(clobber)` call: if the file exists and `clobber` is not
set, return `self` untouched; otherwise issue the GET (counted), raise
`RuntimeError(code)` unless the status is 200, else write the file.
The result pairs the outcome with the number of network requests made. -/
def fetchFile (rec : ModelRec) (fs : List String) (filename : String)
    (clobber : Bool) (status : Nat) :
    Except Nat (ModelRec × List String) × Nat :=
  if fs.contains filename && !clobber then (.ok (rec, fs), 0)
  else if status = 200 then (.ok (rec, filename :: fs), 1)
  else (.error status, 1)

/-- Two successive `fetch` calls on the same record (the second runs only
if the first returned normally), with their network requests summed. -/
def fetchFileTwice (rec : ModelRec) (fs : List String) (filename : String)
    (clobber : Bool) (status1 status2 : Nat) :
    Except Nat (ModelRec × List String) × Nat :=
  match fetchFile rec fs filename clobber status1 with
  | (.ok (r1, fs1), n1) =>
    let out := fetchFile r1 fs1 filename clobber status2
    (out.1, n1 + out.2)
  | (.error e, n1) => (.error e, n1)

/-!
Section: the planet-name pattern match of `API.planet` (api.py 179-198).

`re.findall("([0-9]+)[-\s]*([a-zA-Z])", name)` scans left to right for a
non-empty digit run, then any run of `-`/whitespace, then one ASCII
letter.  The three character classes are mutually disjoint, so the greedy
maximal-munch scan below is exactly the regex engine's behaviour (no
backtracking can succeed where maximal munch fails); on a failed attempt
the scan advances by one character, and a match resumes after its last
character (matches do not overlap).
-/

def isSepChar (c : Char) : Bool := c = '-' || isPySpace c

def isAsciiLetter (c : Char) : Bool :=
  ('a' ≤ c && c ≤ 'z') || ('A' ≤ c && c ≤ 'Z')

/-- One attempted match of the pattern anchored at the head of `l`:
the captured digit run, the captured letter and the rest of the input. -/
def planetMatchAt (l : List Char) : Option (List Char × Char × List Char) :=
  let ds := l.takeWhile Char.isDigit
  if ds.isEmpty then none
  else
    match (l.dropWhile Char.isDigit).dropWhile isSepChar with
    | c :: rest => if isAsciiLetter c then some (ds, c, rest) else none
    | [] => none

/-- The scan loop of `re.findall`; the fuel argument bounds the number of
scan steps (each step consumes at least one character, so the length of
the input suffices). -/
def findallPlanetAux : Nat → List Char → List (List Char × Char)
  | 0, _ => []
  | _ + 1, [] => []
  | fuel + 1, c :: rest =>
    if c.isDigit then
      match planetMatchAt (c :: rest) with
      | some (ds, letter, rest2) => (ds, letter) :: findallPlanetAux fuel rest2
      | Option.none => findallPlanetAux fuel rest
    else findallPlanetAux fuel rest

/-- `re.findall("([0-9]+)[-\s]*([a-zA-Z])", name)`. -/
def findallPlanet (name : String) : List (String × Char) :=
  (findallPlanetAux name.data.length name.data).map
    (fun p => (String.mk p.1, p.2))

/-- `API.planet` up to its archive query: parse the free-form name; with
anything other than exactly one match, raise `ValueError` before any
query is issued; otherwise return the canonical
`"Kepler-{0} {1}".format(*matches[0])` name the query is made with. -/
def planetQueryName (name : String) : Except PyErr String :=
  match findallPlanet name with
  | [(d, letter)] => .ok ("Kepler-" ++ d ++ " " ++ String.mk [letter])
  | _ => .error .valueError

/-!
Section: lazy relation accessors (api.py lines 289-295, 307-317,
329-334).

All four relation properties have the same shape:

  if self._x is None:
      self._x = self.api.query(...)
  return self._x

Each of the four underlying queries (`api.kois`, `api.star`, `api.koi`)
issues exactly one archive request.  The archive's responses are an
oracle (`net i` is the result of the `i`-th request); the model covers
resolutions that return normally, which are the only ones that assign the
slot.  `ApiState` counts requests issued through the owning gateway.
-/

structure ApiState where
  requests : Nat
deriving DecidableEq

/-- The common accessor body: on an unresolved slot, issue one gateway
query, cache and return its result; on a resolved slot, return the cache
without touching the gateway.  Returns (value, new slot, new gateway
state). -/
def lazyGet {α : Type} (net : Nat → α) (slot : Option α) (st : ApiState) :
    α × Option α × ApiState :=
  match slot with
  | Option.none =>
    let r := net st.requests
    (r, some r, { requests := st.requests + 1 })
  | some v => (v, some v, st)

/-- `Star.kois` (the `_kois` slot, one `ea_request` via `api.kois`). -/
def starKoisGet {α : Type} (net : Nat → α) (slot : Option α) (st : ApiState) :
    α × Option α × ApiState := lazyGet net slot st

/-- `KOI.star` (the `_star` slot, one `mast_request` via `api.star`). -/
def koiStarGet {α : Type} (net : Nat → α) (slot : Option α) (st : ApiState) :
    α × Option α × ApiState := lazyGet net slot st

/-- `Planet.koi` (the `_koi` slot, one `ea_request` via `api.koi`). -/
def planetKoiGet {α : Type} (net : Nat → α) (slot : Option α) (st : ApiState) :
    α × Option α × ApiState := lazyGet net slot st

/-- `Planet.star` (the `_star` slot, one `mast_request` via `api.star`). -/
def planetStarGet {α : Type} (net : Nat → α) (slot : Option α) (st : ApiState) :
    α × Option α × ApiState := lazyGet net slot st

/-!
Section: gateway binding and method resolution (offline.py).

`OfflineAPI(API)` overrides `koi`, `star` and `light_curves` only; every
other method — in particular `kois`, `target_pixel_files` and
`_data_search` — is inherited from `API`.  A record stores the gateway
that created it in `self.api` and every accessor dispatches through it.
Each primitive is summarized by the effects it performs: a network
request (`urllib2.urlopen`), a local table read (`OfflineTable.df`), or a
local directory scan (`glob.glob`).
-/

inductive Gateway where
  | remote
  | offline
deriving DecidableEq

inductive Effect where
  | netRequest
  | tableRead
  | dirScan
deriving DecidableEq

/-- `API.ea_request`: one network request. -/
def eaRequestEffects : List Effect := [.netRequest]

/-- `API.mast_request`: one network request. -/
def mastRequestEffects : List Effect := [.netRequest]

/-- `OfflineAPI.table_query`: one local table read. -/
def tableQueryEffects : List Effect := [.tableRead]

/-- `api.kois`: not overridden by `OfflineAPI`, so both gateways run
`API.kois`, which calls `ea_request`. -/
def apiKoisEffects : Gateway → List Effect
  | _ => eaRequestEffects

/-- `api.star`: `API.star` issues a `mast_request`; `OfflineAPI.star`
reads the local stellar table. -/
def apiStarEffects : Gateway → List Effect
  | .remote => mastRequestEffects
  | .offline => tableQueryEffects

/-- `api.koi`: `API.koi` goes through `API.kois` (an `ea_request`);
`OfflineAPI.koi` reads the local cumulative table. -/
def apiKoiEffects : Gateway → List Effect
  | .remote => eaRequestEffects
  | .offline => tableQueryEffects

/-- `api.light_curves`: `API.light_curves` runs `_data_search` (a
`mast_request`); `OfflineAPI.light_curves` scans the local data
directory. -/
def apiLightCurvesEffects : Gateway → List Effect
  | .remote => mastRequestEffects
  | .offline => [.dirScan]

/-- `api.target_pixel_files`: not overridden by `OfflineAPI`, so both
gateways run `API.target_pixel_files` via `_data_search`
(a `mast_request`). -/
def apiTargetPixelFilesEffects : Gateway → List Effect
  | _ => mastRequestEffects

/-- `Star.kois` resolves through the owning gateway's `kois`. -/
def starKoisEffects (g : Gateway) : List Effect := apiKoisEffects g

/-- `KOI.star` resolves through the owning gateway's `star`. -/
def koiStarEffects (g : Gateway) : List Effect := apiStarEffects g

/-- `Planet.koi` resolves through the owning gateway's `koi`. -/
def planetKoiEffects (g : Gateway) : List Effect := apiKoiEffects g

/-- `Planet.star` resolves through the owning gateway's `star`. -/
def planetStarEffects (g : Gateway) : List Effect := apiStarEffects g

/-- `Model.get_light_curves` delegates to the owning gateway's
`light_curves` (api.py line 276). -/
def modelGetLightCurvesEffects (g : Gateway) : List Effect :=
  apiLightCurvesEffects g

/-- `Model.get_target_pixel_files` delegates to the owning gateway's
`target_pixel_files` (api.py line 279). -/
def modelGetTargetPixelFilesEffects (g : Gateway) : List Effect :=
  apiTargetPixelFilesEffects g

/-!
Section: theorems about the field normalizer (C1, C9, C10).
-/

/-- On a string value the try/except chain of `_munge_dict` computes
exactly the spec's rule: empty string to null, else integer parse, else
float parse, else the string kept unchanged. -/
theorem mungeValue_str (s : String) :
    mungeValue (.str s) = .ok (specNormalizeValue s) := by
  by_cases h0 : s = ""
  · subst h0
    rfl
  · rcases h1 : pyIntParse s with _ | n <;>
      rcases h2 : pyFloatParse s with _ | f <;>
        simp [mungeValue, pyIntOf, pyFloatOf, pyEqEmptyStr, specNormalizeValue,
          h0, h1, h2]

/-- C1: for every string-valued raw row mapping, the field normalizer
transforms each value independently — the empty string becomes null,
else a value parsing as an integer becomes that integer, else a value
parsing as a float becomes that float, else the original string is
kept — with the keys unchanged; and the catalog-table
(`ea_request`) and archive (`mast_request`) paths normalize rows with
the same rule. -/
theorem munge_dict_normalizes (row : List (String × String)) :
    mungeDict (row.map (fun kv => (kv.1, PyVal.str kv.2)))
        = .ok (row.map (fun kv => (kv.1, specNormalizeValue kv.2)))
      ∧ ∀ rows, eaNormalizeRows rows = mastNormalizeRows rows := by
  constructor
  · induction row with
    | nil => rfl
    | cons kv rest ih =>
      simp [mungeDict, mungeValue_str, ih]
  · intro rows
    rfl

/-- C9 counterexample: normalizing the already-normalized float value
1.5 does not return it unchanged — `int(1.5)` succeeds, so the value
becomes the integer 1. -/
theorem munge_float_not_idempotent_cex :
    mungeValue (.float (.finite (mkRat 3 2))) = .ok (.int 1)
      ∧ mungeValue (.float (.finite (mkRat 3 2)))
          ≠ .ok (.float (.finite (mkRat 3 2))) := by
  have h1 : mungeValue (.float (.finite (mkRat 3 2))) = .ok (.int 1) := by
    with_unfolding_all rfl
  refine ⟨h1, ?_⟩
  rw [h1]
  intro hc
  exact PyVal.noConfusion (Except.ok.inj hc)

/-- C9 (amended): the normalizer is the identity on already-normalized
integer values; but a finite float is truncated toward zero to an
integer (1.5 becomes the integer 1, not the float 1.5), and null raises
a `TypeError` instead of being returned. -/
theorem munge_idempotent_amended :
    (∀ n : ℤ, mungeValue (.int n) = .ok (.int n))
      ∧ (∀ q : ℚ, mungeValue (.float (.finite q)) = .ok (.int (ratTrunc q)))
      ∧ mungeValue PyVal.none = .error .typeError :=
  ⟨fun _ => rfl, fun _ => rfl, rfl⟩

/-- C10 counterexample: the normalizer is not total — on a JSON null the
`TypeError` raised by `int(None)` is not caught by the
`except ValueError` handlers and propagates. -/
theorem munge_none_raises_cex :
    mungeValue PyVal.none = .error PyErr.typeError := rfl

/-- C10 (amended): on every string value the normalizer is total and
never raises — when both the integer and the float parse fail the
original string is kept rather than an error raised; a non-string null
value instead raises a `TypeError`. -/
theorem munge_total_on_strings (s : String) :
    ∃ t : PyVal, mungeValue (.str s) = .ok t :=
  ⟨specNormalizeValue s, mungeValue_str s⟩

/-!
Section: theorems about planet-name parsing (C7).
-/

/-- C7: `API.planet` parses the free-form name by the pattern
`([0-9]+)[-\s]*([a-zA-Z])`: both "Kepler-62b" and "62 b" parse to
designation 62 with suffix b, yielding the canonical query name
"Kepler-62 b"; "bogus" has no match; and for every input string without
exactly one match, `ValueError` is raised before any query is issued. -/
theorem planet_name_parsing :
    planetQueryName "Kepler-62b" = .ok "Kepler-62 b"
      ∧ planetQueryName "62 b" = .ok "Kepler-62 b"
      ∧ findallPlanet "bogus" = []
      ∧ planetQueryName "bogus" = .error .valueError
      ∧ ∀ name : String, (findallPlanet name).length ≠ 1 →
          planetQueryName name = .error .valueError := by
  refine ⟨by decide, by decide, by decide, by decide, ?_⟩
  intro name h
  rcases hm : findallPlanet name with _ | ⟨⟨d, letter⟩, rest⟩
  · simp [planetQueryName, hm]
  · rcases rest with _ | ⟨q, rest2⟩
    · exact absurd (by rw [hm]; rfl) h
    · simp [planetQueryName, hm]

/-- Witness for `planet_name_parsing`: the concrete input "62" (digits
with no letter) yields no match, and the parse raises `ValueError`. -/
theorem planet_name_parsing_witness :
    (findallPlanet "62").length ≠ 1
      ∧ planetQueryName "62" = .error .valueError := by
  have h : (findallPlanet "62").length ≠ 1 := by decide
  exact ⟨h, planet_name_parsing.2.2.2.2 "62" h⟩

/-!
Section: theorems about identity templates and record construction
(C3, C8).
-/

/-- C3 counterexample: a Candidate (KOI) built from a mapping with
kepoi_name = "K00752.01" has identity string "\"K00752.01\"" — the
`_id` template wraps the field value in literal double quotes, so the
identity is not the bare field value. -/
theorem koi_identity_quoted_cex :
    koiInit [("kepoi_name", PyVal.str "K00752.01")]
        = .ok { fields := [("kepoi_name", PyVal.str "K00752.01")],
                name := "\"K00752.01\"" }
      ∧ ("\"K00752.01\"" : String) ≠ "K00752.01" :=
  ⟨by decide, by decide⟩

/-- C3 (amended): each variant's display identity is its fixed template
over the row mapping: a Star's identity is the decimal rendering of its
kic_kepler_id field with no extra characters (12345 gives "12345"),
while a Candidate's identity is its kepoi_name field value wrapped in
literal double quotes ("K00752.01" gives "\"K00752.01\""). -/
theorem identity_templates_amended (paramsS paramsK : List (String × PyVal))
    (n : ℤ) (s : String)
    (hstar : paramsS.lookup "kic_kepler_id" = some (.int n))
    (hkoi : paramsK.lookup "kepoi_name" = some (.str s)) :
    (∀ r, starInit paramsS = .ok r → r.name = intDecimal n)
      ∧ (∀ r, koiInit paramsK = .ok r → r.name = "\"" ++ s ++ "\"")
      ∧ intDecimal 12345 = "12345" := by
  refine ⟨?_, ?_, by decide⟩
  · intro r hr
    simp [starInit, modelInit, starIdTemplate, pyFormat, Except.map, hstar] at hr
    rw [← hr]
    simp [pyStrVal, String.append_empty]
  · intro r hr
    simp [koiInit, modelInit, koiIdTemplate, pyFormat, Except.map, hkoi] at hr
    rw [← hr]
    simp [pyStrVal, String.append_empty, String.append_assoc]

/-- Witness for `identity_templates_amended` at concrete mappings. -/
theorem identity_templates_amended_witness :
    ({ fields := [("kepid", PyVal.int 12345), ("kic_kepler_id", PyVal.int 12345)],
       name := "12345" : ModelRec }.name = intDecimal 12345)
      ∧ ({ fields := [("kepoi_name", PyVal.str "K00752.01")],
           name := "\"K00752.01\"" : ModelRec }.name
          = "\"" ++ "K00752.01" ++ "\"") := by
  have h := identity_templates_amended
    [("kic_kepler_id", PyVal.int 12345)]
    [("kepoi_name", PyVal.str "K00752.01")]
    12345 "K00752.01" (by decide) (by decide)
  exact ⟨h.1 _ (by decide), h.2.1 _ (by decide)⟩

/-- C8 counterexample: construction does not fail on a null identifying
field — a KOI built from a mapping whose kepoi_name is null succeeds,
with identity "\"None\"" (Python `str.format` renders `None`). -/
theorem koi_null_identity_cex :
    koiInit [("kepoi_name", PyVal.none)]
      = .ok { fields := [("kepoi_name", PyVal.none)], name := "\"None\"" } := by
  decide

/-- C8 (amended): construction fails — with the `KeyError` of the
identity template's mapping access — exactly when a template-referenced
identifying field is absent from the mapping; a present field never
fails, whatever its value (null included); and on success every mapping
field is exposed as an attribute. -/
theorem record_construction_missing_field (params : List (String × PyVal)) :
    ((∃ r, koiInit params = .ok r) ↔ (params.lookup "kepoi_name").isSome)
      ∧ ((∃ r, starInit params = .ok r)
          ↔ (params.lookup "kic_kepler_id").isSome)
      ∧ ((∃ s, pyFormat datafileIdTemplate params = .ok s)
          ↔ ((params.lookup "sci_data_set_name").isSome
              ∧ (params.lookup "ktc_target_type").isSome))
      ∧ (∀ e, koiInit params = .error e → e = .keyError)
      ∧ (∀ r, koiInit params = .ok r → r.fields = params) := by
  refine ⟨?_, ?_, ?_, ?_, ?_⟩
  · rcases h : params.lookup "kepoi_name" with _ | v <;>
      simp [koiInit, modelInit, koiIdTemplate, pyFormat, Except.map, h]
  · rcases h : params.lookup "kic_kepler_id" with _ | v <;>
      simp [starInit, modelInit, starIdTemplate, pyFormat, Except.map, h]
  · rcases h1 : params.lookup "sci_data_set_name" with _ | v1 <;>
      rcases h2 : params.lookup "ktc_target_type" with _ | v2 <;>
        simp [datafileIdTemplate, pyFormat, Except.map, h1, h2]
  · intro e he
    rcases h : params.lookup "kepoi_name" with _ | v
    · simp [koiInit, modelInit, koiIdTemplate, pyFormat, Except.map, h] at he
      exact he.symm
    · simp [koiInit, modelInit, koiIdTemplate, pyFormat, Except.map, h] at he
  · intro r hr
    rcases h : params.lookup "kepoi_name" with _ | v
    · simp [koiInit, modelInit, koiIdTemplate, pyFormat, Except.map, h] at hr
    · simp [koiInit, modelInit, koiIdTemplate, pyFormat, Except.map, h] at hr
      rw [← hr]

/-- Witness for `record_construction_missing_field`: a mapping missing
kepoi_name makes KOI construction fail with `KeyError`; one containing
it succeeds and exposes the whole mapping as attributes. -/
theorem record_construction_missing_field_witness :
    koiInit [("kepid", PyVal.int 10666592)] = .error .keyError
      ∧ PyErr.keyError = .keyError
      ∧ koiInit [("kepoi_name", PyVal.str "K00002.01")]
          = .ok { fields := [("kepoi_name", PyVal.str "K00002.01")],
                  name := "\"K00002.01\"" }
      ∧ ({ fields := [("kepoi_name", PyVal.str "K00002.01")],
           name := "\"K00002.01\"" : ModelRec }).fields
          = [("kepoi_name", PyVal.str "K00002.01")] := by
  have herr : koiInit [("kepid", PyVal.int 10666592)] = .error .keyError := by
    decide
  have hok : koiInit [("kepoi_name", PyVal.str "K00002.01")]
      = .ok { fields := [("kepoi_name", PyVal.str "K00002.01")],
              name := "\"K00002.01\"" } := by
    decide
  refine ⟨herr, ?_, hok, ?_⟩
  · exact (record_construction_missing_field _).2.2.2.1 _ herr
  · exact (record_construction_missing_field _).2.2.2.2 _ hok



/-!
Section: theorems about the dataset locator (C2).
-/

/-- With a non-empty first component not ending in `/` and a second
component not starting with `/`, `posixpath.join` inserts exactly one
separator. -/
theorem pyJoin_sep (a b : String) (h1 : a.data ≠ [])
    (h2 : a.data.getLast? ≠ some '/') (h3 : b.data.head? ≠ some '/') :
    pyJoin a b = a ++ "/" ++ b := by
  unfold pyJoin
  rw [if_neg h3, if_neg h1, if_neg h2]

theorem digitChar_isDigit (n : Nat) : (digitChar n).isDigit = true := by
  unfold digitChar
  split <;> decide

theorem natToRevDigits_all_digits :
    ∀ fuel n : Nat, ∀ c ∈ natToRevDigits fuel n, c.isDigit = true := by
  intro fuel
  induction fuel with
  | zero => intro n c hc; simp [natToRevDigits] at hc
  | succ f ih =>
    intro n c hc
    cases n with
    | zero => simp [natToRevDigits] at hc
    | succ m =>
      rw [natToRevDigits] at hc
      rcases List.mem_cons.mp hc with h | h
      · rw [h]
        exact digitChar_isDigit _
      · exact ih _ c h

theorem natDecimal_all_digits (n : Nat) :
    ∀ c ∈ (natDecimal n).data, c.isDigit = true := by
  intro c hc
  unfold natDecimal at hc
  by_cases h : n = 0
  · rw [if_pos h] at hc
    have : c = '0' := by simpa using hc
    rw [this]
    decide
  · rw [if_neg h] at hc
    exact natToRevDigits_all_digits n n c (List.mem_reverse.mp hc)

theorem natDecimal_ne_nil (n : Nat) : (natDecimal n).data ≠ [] := by
  unfold natDecimal
  by_cases h : n = 0
  · rw [if_pos h]
    decide
  · rw [if_neg h]
    cases n with
    | zero => exact absurd rfl h
    | succ m =>
      show (natToRevDigits (m + 1) (m + 1)).reverse ≠ []
      rw [natToRevDigits]
      simp

theorem pad9_all_digits (n : Nat) : ∀ c ∈ (pad9 n).data, c.isDigit = true := by
  intro c hc
  unfold pad9 at hc
  rw [String.data_append] at hc
  rcases List.mem_append.mp hc with h | h
  · rw [List.eq_of_mem_replicate h]
    decide
  · exact natDecimal_all_digits n c h

theorem pad9_ne_nil (n : Nat) : (pad9 n).data ≠ [] := by
  unfold pad9
  rw [String.data_append]
  intro h
  exact natDecimal_ne_nil n (List.append_eq_nil.mp h).2

theorem pad9_head_ne_slash (n : Nat) : (pad9 n).data.head? ≠ some '/' := by
  intro h
  exact absurd (pad9_all_digits n '/' (List.mem_of_mem_head? h)) (by decide)

theorem pad9_getLast_ne_slash (n : Nat) :
    (pad9 n).data.getLast? ≠ some '/' := by
  intro h
  exact absurd (pad9_all_digits n '/' (List.mem_of_mem_getLast? h)) (by decide)

theorem pyLowerChar_ne_slash (c : Char) (h : c ≠ '/') : pyLowerChar c ≠ '/' := by
  unfold pyLowerChar
  split <;> first | decide | exact h

/-- The derived `_filename` never starts with `/` when the dataset name
does not. -/
theorem datafileFilename_head_ne_slash (cls : DatafileClass)
    (dataset ttype : String) (hds : dataset.data.head? ≠ some '/') :
    (datafileFilenameLocal cls dataset ttype).data.head? ≠ some '/' := by
  unfold datafileFilenameLocal pyLower
  intro hcon
  rw [show (String.mk ((dataset ++ "_" ++ datafileSuffix cls ttype
        ++ cls.filetype).data.map pyLowerChar)).data
      = (dataset ++ "_" ++ datafileSuffix cls ttype
          ++ cls.filetype).data.map pyLowerChar from rfl] at hcon
  rw [List.head?_map, String.data_append, String.data_append,
    String.data_append] at hcon
  rcases hd : dataset.data with _ | ⟨c, rest⟩
  · rw [hd] at hcon
    simp at hcon
    exact absurd hcon (by decide)
  · rw [hd] at hcon
    simp at hcon
    have hc : c ≠ '/' := by
      rw [hd] at hds
      intro hce
      exact hds (by rw [hce]; rfl)
    exact pyLowerChar_ne_slash c hc hcon

/-- Non-emptiness of an append from the right component. -/
theorem data_append_ne_nil (a b : String) (hb : b.data ≠ []) :
    (a ++ b).data ≠ [] := by
  rw [String.data_append]
  simp [hb]

/-- The last character of an append from the right component. -/
theorem data_append_getLast_ne_slash (a b : String) (hb : b.data ≠ [])
    (h : b.data.getLast? ≠ some '/') :
    (a ++ b).data.getLast? ≠ some '/' := by
  rw [String.data_append, List.getLast?_append]
  rcases hq : b.data.getLast? with _ | c
  · exact absurd (List.getLast?_eq_none_iff.mp hq) hb
  · rw [hq] at h
    simpa using h

/-- The `base_dir`-with-id part of the locator is the plain
slash-separated concatenation. -/
theorem basePath_eq (root product : String) (id : Nat)
    (hroot1 : root.data ≠ []) (hroot2 : root.data.getLast? ≠ some '/')
    (hp1 : product.data ≠ []) (hp2 : product.data.head? ≠ some '/')
    (hp3 : product.data.getLast? ≠ some '/') :
    pyJoin (pyJoin (pyJoin root "data") product) (pad9 id)
      = root ++ "/" ++ "data" ++ "/" ++ product ++ "/" ++ pad9 id := by
  have h1 : pyJoin root "data" = root ++ "/" ++ "data" :=
    pyJoin_sep _ _ hroot1 hroot2 (by decide)
  have hne1 : (root ++ "/" ++ "data").data ≠ [] :=
    data_append_ne_nil _ _ (by decide)
  have hlast1 : (root ++ "/" ++ "data").data.getLast? ≠ some '/' :=
    data_append_getLast_ne_slash _ _ (by decide) (by decide)
  have h2 : pyJoin (root ++ "/" ++ "data") product
      = root ++ "/" ++ "data" ++ "/" ++ product :=
    pyJoin_sep _ _ hne1 hlast1 hp2
  have hne2 : (root ++ "/" ++ "data" ++ "/" ++ product).data ≠ [] :=
    data_append_ne_nil _ _ hp1
  have hlast2 : (root ++ "/" ++ "data" ++ "/" ++ product).data.getLast?
      ≠ some '/' :=
    data_append_getLast_ne_slash _ _ hp1 hp3
  have h3 : pyJoin (root ++ "/" ++ "data" ++ "/" ++ product) (pad9 id)
      = root ++ "/" ++ "data" ++ "/" ++ product ++ "/" ++ pad9 id :=
    pyJoin_sep _ _ hne2 hlast2 (pad9_head_ne_slash id)
  rw [h1, h2, h3]

/-- C2: the local cache path and remote URL of a data-file record are
pure functions of (root, product kind, target id, dataset name,
target-type flag): the id is zero-padded to 9 digits; the suffix is the
long-cadence one exactly when the flag equals "LC"; the filename is the
lowercased `<dataset>_<suffix><ext>`; the local path is
`root/data/<product>/<padded-id>/<filename>`; the URL is the fixed base
followed by `<product>/<first-4-of-padded-id>/<padded-id>/<filename>`. -/
theorem datafile_locator_paths (root dataset ttype : String) (id : Nat)
    (cls : DatafileClass)
    (hcls : cls = lightCurveClass ∨ cls = targetPixelFileClass)
    (hroot1 : root.data ≠ []) (hroot2 : root.data.getLast? ≠ some '/')
    (hds : dataset.data.head? ≠ some '/') :
    datafileSuffix cls ttype
        = (if ttype = "LC" then cls.suffixes.getD 0 ""
           else cls.suffixes.getD 1 "")
      ∧ datafileFilenameLocal cls dataset ttype
          = pyLower (dataset ++ "_" ++ datafileSuffix cls ttype ++ cls.filetype)
      ∧ datafileLocalPath root cls id dataset ttype
          = root ++ "/data/" ++ cls.product ++ "/" ++ pad9 id ++ "/"
              ++ datafileFilenameLocal cls dataset ttype
      ∧ datafileUrl cls id dataset ttype
          = "http://archive.stsci.edu/pub/kepler/" ++ cls.product ++ "/"
              ++ String.mk ((pad9 id).data.take 4) ++ "/" ++ pad9 id ++ "/"
              ++ datafileFilenameLocal cls dataset ttype := by
  refine ⟨?_, rfl, ?_, rfl⟩
  · by_cases h : ttype = "LC" <;> simp [datafileSuffix, h]
  · have hfn := datafileFilename_head_ne_slash cls dataset ttype hds
    rcases hcls with h | h <;> subst h
    · have hbase := basePath_eq root "lightcurves" id hroot1 hroot2
        (by decide) (by decide) (by decide)
      rw [datafileLocalPath, datafileBaseDir]
      rw [show lightCurveClass.product = "lightcurves" from rfl] at *
      rw [hbase]
      rw [pyJoin_sep _ _
        (data_append_ne_nil _ _ (pad9_ne_nil id))
        (data_append_getLast_ne_slash _ _ (pad9_ne_nil id)
          (pad9_getLast_ne_slash id))
        hfn]
      apply String.ext
      simp [String.data_append, List.append_assoc]
    · have hbase := basePath_eq root "target_pixel_files" id hroot1 hroot2
        (by decide) (by decide) (by decide)
      rw [datafileLocalPath, datafileBaseDir]
      rw [show targetPixelFileClass.product = "target_pixel_files" from rfl] at *
      rw [hbase]
      rw [pyJoin_sep _ _
        (data_append_ne_nil _ _ (pad9_ne_nil id))
        (data_append_getLast_ne_slash _ _ (pad9_ne_nil id)
          (pad9_getLast_ne_slash id))
        hfn]
      apply String.ext
      simp [String.data_append, List.append_assoc]

/-- Witness for `datafile_locator_paths` at the concrete record of the
claim: root `/data`, target id 758591, long cadence, dataset
`kplr008561063-2013011073258`. -/
theorem datafile_locator_paths_witness :
    (("/data" : String).data ≠ []
        ∧ ("/data" : String).data.getLast? ≠ some '/'
        ∧ ("kplr008561063-2013011073258" : String).data.head? ≠ some '/')
      ∧ datafileLocalPath "/data" lightCurveClass 758591
            "kplr008561063-2013011073258" "LC"
          = "/data/data/lightcurves/000758591/kplr008561063-2013011073258_llc.fits"
      ∧ datafileUrl lightCurveClass 758591
            "kplr008561063-2013011073258" "LC"
          = "http://archive.stsci.edu/pub/kepler/lightcurves/0007/000758591/kplr008561063-2013011073258_llc.fits" := by
  have h := datafile_locator_paths "/data" "kplr008561063-2013011073258"
    "LC" 758591 lightCurveClass (Or.inl rfl) (by decide) (by decide) (by decide)
  refine ⟨⟨by decide, by decide, by decide⟩, ?_, ?_⟩
  · rw [h.2.2.1]
    decide
  · rw [h.2.2.2]
    decide

/-!
Section: theorems about lazy memoization, gateway binding and fetch
(C4, C5, C6).
-/

/-- C4: on a freshly constructed record (all relation slots set to
`None` by `__init__`), the first access to a lazy relation issues
exactly one gateway query and caches its result, and a second access —
even with the archive in a different state (`net2`) — returns the cached
value and leaves the gateway untouched; the `KOI.star`, `Planet.koi` and
`Planet.star` accessors run the same body as `Star.kois`. -/
theorem lazy_relation_single_query {α : Type} (net net2 : Nat → α)
    (st : ApiState) :
    (starKoisGet net Option.none st).2.2.requests = st.requests + 1
      ∧ (starKoisGet net Option.none st).2.1
          = some (starKoisGet net Option.none st).1
      ∧ starKoisGet net2 (starKoisGet net Option.none st).2.1
            (starKoisGet net Option.none st).2.2
          = ((starKoisGet net Option.none st).1,
             (starKoisGet net Option.none st).2.1,
             (starKoisGet net Option.none st).2.2)
      ∧ ∀ slot : Option α,
          koiStarGet net slot st = starKoisGet net slot st
            ∧ planetKoiGet net slot st = starKoisGet net slot st
            ∧ planetStarGet net slot st = starKoisGet net slot st :=
  ⟨rfl, rfl, rfl, fun _ => ⟨rfl, rfl, rfl⟩⟩

/-- C5 counterexample: a Star created by the Offline gateway issues a
network request when its candidate list is resolved — `OfflineAPI` does
not override `kois`, so `Star.kois` runs the inherited remote
implementation, which calls `ea_request`. -/
theorem offline_kois_network_cex :
    Effect.netRequest ∈ starKoisEffects Gateway.offline := by
  decide

/-- C5 (amended): every record resolves through its single owning
gateway; a record created by the Remote gateway never reads the offline
tables; a record created by the Offline gateway touches only local data
through its star, koi and light-curve accessors — but its candidate-list
(`kois`) and target-pixel-file accessors run the implementations
inherited from the Remote gateway and do issue network requests. -/
theorem gateway_binding_amended :
    (∀ g, starKoisEffects g = apiKoisEffects g
        ∧ koiStarEffects g = apiStarEffects g
        ∧ planetKoiEffects g = apiKoiEffects g
        ∧ planetStarEffects g = apiStarEffects g
        ∧ modelGetLightCurvesEffects g = apiLightCurvesEffects g
        ∧ modelGetTargetPixelFilesEffects g = apiTargetPixelFilesEffects g)
      ∧ (Effect.netRequest ∉ koiStarEffects .offline
          ∧ Effect.netRequest ∉ planetKoiEffects .offline
          ∧ Effect.netRequest ∉ planetStarEffects .offline
          ∧ Effect.netRequest ∉ modelGetLightCurvesEffects .offline)
      ∧ (Effect.netRequest ∈ starKoisEffects .offline
          ∧ Effect.netRequest ∈ modelGetTargetPixelFilesEffects .offline)
      ∧ (Effect.tableRead ∉ starKoisEffects .remote
          ∧ Effect.tableRead ∉ koiStarEffects .remote
          ∧ Effect.tableRead ∉ planetKoiEffects .remote
          ∧ Effect.tableRead ∉ planetStarEffects .remote
          ∧ Effect.tableRead ∉ modelGetLightCurvesEffects .remote
          ∧ Effect.tableRead ∉ modelGetTargetPixelFilesEffects .remote) := by
  exact ⟨fun g => ⟨rfl, rfl, rfl, rfl, rfl, rfl⟩, by decide, by decide, by decide⟩

/-- C6: if the derived local path already exists and the clobber flag is
not set, `fetch` performs no network request, leaves the filesystem
unchanged and returns the same record; and two successive unforced
fetches perform at most one network request in total, the second call
being a no-op returning the same record whenever the first returned
normally. -/
theorem fetch_idempotent (rec : ModelRec) (fs : List String)
    (filename : String) (status status1 status2 : Nat) :
    (filename ∈ fs →
        fetchFile rec fs filename false status = (.ok (rec, fs), 0))
      ∧ (fetchFileTwice rec fs filename false status1 status2).2 ≤ 1
      ∧ ∀ r1 fs1 n1,
          fetchFile rec fs filename false status1 = (.ok (r1, fs1), n1) →
            r1 = rec
              ∧ fetchFile r1 fs1 filename false status2
                  = (.ok (r1, fs1), 0) := by
  refine ⟨?_, ?_, ?_⟩
  · intro hex
    simp [fetchFile, hex]
  · by_cases hc : filename ∈ fs
    · simp [fetchFileTwice, fetchFile, hc]
    · by_cases hs : status1 = 200
      · simp [fetchFileTwice, fetchFile, hc, hs]
      · simp [fetchFileTwice, fetchFile, hc, hs]
  · intro r1 fs1 n1 h
    by_cases hc : filename ∈ fs
    · simp [fetchFile, hc] at h
      rcases h with ⟨⟨h1, h2⟩, h3⟩
      subst h1
      subst h2
      exact ⟨rfl, by simp [fetchFile, hc]⟩
    · by_cases hs : status1 = 200
      · simp [fetchFile, hc, hs] at h
        rcases h with ⟨⟨h1, h2⟩, h3⟩
        subst h1
        subst h2
        exact ⟨rfl, by simp [fetchFile]⟩
      · simp [fetchFile, hc, hs] at h

/-- Witness for `fetch_idempotent` at a concrete record, filesystem and
statuses: a cache hit is a free no-op, and after a successful download a
second fetch is a no-op on the same record. -/
theorem fetch_idempotent_witness :
    fetchFile ⟨[], "r"⟩ ["/d/f.fits"] "/d/f.fits" false 404
        = (.ok (⟨[], "r"⟩, ["/d/f.fits"]), 0)
      ∧ (fetchFileTwice ⟨[], "r"⟩ [] "/d/f.fits" false 200 200).2 ≤ 1
      ∧ (⟨[], "r"⟩ : ModelRec) = ⟨[], "r"⟩
      ∧ fetchFile ⟨[], "r"⟩ ["/d/f.fits"] "/d/f.fits" false 200
          = (.ok (⟨[], "r"⟩, ["/d/f.fits"]), 0) := by
  have h1 := (fetch_idempotent ⟨[], "r"⟩ ["/d/f.fits"] "/d/f.fits"
    404 200 200).1 (by decide)
  have h2 := (fetch_idempotent ⟨[], "r"⟩ [] "/d/f.fits" 404 200 200).2.1
  have h3 := (fetch_idempotent ⟨[], "r"⟩ [] "/d/f.fits" 404 200 200).2.2
    ⟨[], "r"⟩ ["/d/f.fits"] 1 (by decide)
  exact ⟨h1, h2, h3.1, h3.2⟩

end Kplr
